import Mathlib

/-!
Verification of the car-insurance tracker bot (src/index.js) against its
natural-language specification. The JavaScript source is shallowly embedded:
timestamps are `Int` milliseconds since the epoch (the configured zone,
Asia/Kolkata, has a fixed UTC offset and no DST, so all of the source's date
arithmetic is plain millisecond arithmetic), the record store is a `List Car`,
and each command handler becomes a pure function from the store and its
inputs to the new store and a result value.
-/

/-- One day in milliseconds (moment's unit for a day difference). -/
def msPerDay : Int := 86400000

/-- Ceiling division for a positive divisor, written with Euclidean division
(`Int./` is Euclidean): `ceil (a / b) = -((-a) / b)`. -/
def ceilDiv (a b : Int) : Int := -((-a) / b)

/-- `getDaysLeft` (src/index.js:97-101):
`Math.ceil(expiry.diff(now, 'days', true))`. moment's fractional day diff is
`(expiry - now) / 86400000` in milliseconds, so the result is the ceiling of
that quotient. -/
def getDaysLeft (expiryDate now : Int) : Int := ceilDiv (expiryDate - now) msPerDay

/-- `getStatusEmoji` (src/index.js:103-108). -/
def getStatusEmoji (daysLeft : Int) : String :=
  if daysLeft ≤ 0 then "❌ EXPIRED"
  else if daysLeft ≤ 3 then "🚨 URGENT"
  else if daysLeft ≤ 7 then "⚠️ WARNING"
  else "✅ ACTIVE"

/-- The urgency tiers named by the spec. -/
inductive Tier where
  | expired
  | urgent
  | warning
  | active
deriving DecidableEq

/-- The label the source renders for each tier. -/
def tierLabel : Tier → String
  | .expired => "❌ EXPIRED"
  | .urgent => "🚨 URGENT"
  | .warning => "⚠️ WARNING"
  | .active => "✅ ACTIVE"

/-- Modelled from the spec's tier table, with the interval boundaries stated
there: `daysLeft <= 0` EXPIRED, `1..3` URGENT, `4..7` WARNING, `>7` ACTIVE. -/
def specTier (d : Int) : Tier :=
  if d ≤ 0 then .expired
  else if 1 ≤ d ∧ d ≤ 3 then .urgent
  else if 4 ≤ d ∧ d ≤ 7 then .warning
  else .active

/-- An insurance record (the `carInsuranceSchema`, src/index.js:76-83).
`expiryDate` and `lastUpdated` are epoch milliseconds. -/
structure Car where
  carName : String
  numberPlate : String
  expiryDate : Int
  addedBy : String
  lastUpdated : Int
deriving DecidableEq

/-- The loop body of `chunkArray` (src/index.js:111-117), state-passing:
`while (array.length) results.push(array.splice(0, chunkSize))`. The result
is the pushed chunks together with the final state of the `array` argument
(`splice` removes the taken elements from the array object in place). The
source loops forever when `chunkSize = 0` (splice removes nothing); that case
is mapped to no chunks here and never arises at a call site (all use 10).
`fuel` bounds the recursion; `fuel = array.length` always suffices. -/
def chunkLoop : Nat → List α → Nat → List (List α) × List α
  | _, arr, 0 => ([], arr)
  | 0, arr, _ + 1 => ([], arr)
  | _ + 1, [], _ + 1 => ([], [])
  | fuel + 1, a :: rest, k + 1 =>
    let t := chunkLoop fuel ((a :: rest).drop (k + 1)) (k + 1)
    ((a :: rest).take (k + 1) :: t.1, t.2)

/-- `chunkArray` with its mutation made explicit: first component is the
returned list of chunks, second is the final state of the caller's array. -/
def chunkArrayMut (arr : List α) (chunkSize : Nat) : List (List α) × List α :=
  chunkLoop arr.length arr chunkSize

/-- The return value of `chunkArray` (src/index.js:111-117). -/
def chunkArray (arr : List α) (chunkSize : Nat) : List (List α) :=
  (chunkArrayMut arr chunkSize).1

/-- The character class of the plate regex `/^[A-Z0-9-]{2,15}$/i`. -/
def isPlateChar (c : Char) : Bool :=
  ('A' ≤ c && c ≤ 'Z') || ('a' ≤ c && c ≤ 'z') || ('0' ≤ c && c ≤ '9') || c == '-'

/-- The plate validation regex test in `handleNewCarInsurance`
(src/index.js:297): 2 to 15 characters, alphanumeric or hyphen,
case-insensitive. -/
def isValidPlate (s : String) : Bool :=
  2 ≤ s.length && s.length ≤ 15 && s.toList.all isPlateChar

/-- The two user-visible failure modes of record creation. -/
inductive CreateError where
  | invalidPlate
  | duplicatePlate
deriving DecidableEq

/-- `handleNewCarInsurance` (src/index.js:291-359): validate the plate
pattern, then save; the MongoDB unique index on `numberPlate` rejects
(error code 11000, rendered as the duplicate reply) exactly when a record
with the byte-identical plate string already exists — the index has no
collation, so the match is case-sensitive. Returns the store after the
command together with the outcome. `daysLeft` is the `days_left` option and
`now` the invocation time; `expiryDate = now + daysLeft` days
(src/index.js:313), `lastUpdated` defaults to now. -/
def handleNewCarInsurance (store : List Car) (carName numberPlate : String)
    (daysLeft now : Int) (addedBy : String) : List Car × Except CreateError Car :=
  if !isValidPlate numberPlate then (store, .error .invalidPlate)
  else if store.any (fun r => r.numberPlate == numberPlate) then
    (store, .error .duplicatePlate)
  else
    let c : Car := { carName := carName, numberPlate := numberPlate,
                     expiryDate := now + daysLeft * msPerDay,
                     addedBy := addedBy, lastUpdated := now }
    (store ++ [c], .ok c)

/-- `CarInsurance.findOne({ numberPlate })` (src/index.js:380, 444): exact
match on the plate string. -/
def findByPlate (store : List Car) (plate : String) : Option Car :=
  store.find? (fun r => r.numberPlate == plate)

/-- `car.save()` on a fetched document: the stored record with this plate is
replaced by the mutated document. -/
def saveCar (store : List Car) (c : Car) : List Car :=
  store.map (fun r => if r.numberPlate == c.numberPlate then c else r)

/-- Outcomes of the reduce command. -/
inductive LessOutcome where
  | notFound
  | rejected (oldExpiry newExpiry daysLeft : Int)
  | updated (car : Car)
deriving DecidableEq

/-- `handleLessCarInsurance` (src/index.js:426-504), after the `new_car_`
autocomplete-tag early return: look the record up by plate; compute
`newExpiry = oldExpiry.clone().subtract(days)` (the clone leaves the stored
expiry untouched) and `daysLeft = getDaysLeft(newExpiry)`. If `daysLeft < 0`
reply INVALID ADJUSTMENT carrying the current expiry, the resulting expiry
and the days left, and change nothing; otherwise commit the new expiry and
refresh `lastUpdated`. -/
def handleLessCarInsurance (store : List Car) (plate : String)
    (daysToSubtract now : Int) : List Car × LessOutcome :=
  match findByPlate store plate with
  | none => (store, .notFound)
  | some car =>
    let oldExpiry := car.expiryDate
    let newExpiry := oldExpiry - daysToSubtract * msPerDay
    let daysLeft := getDaysLeft newExpiry now
    if daysLeft < 0 then (store, .rejected oldExpiry newExpiry daysLeft)
    else
      let car' := { car with expiryDate := newExpiry, lastUpdated := now }
      (saveCar store car', .updated car')

/-- The expiry fields of the extend command's success reply. -/
structure AddReply where
  oldExpiryField : Int
  newExpiryField : Int
  daysLeftField : Int
deriving DecidableEq

/-- The core of `handleAddCarInsurance` (src/index.js:394-419) once the
record is found: `const oldExpiry = moment(car.expiryDate); const newExpiry =
oldExpiry.add(daysToAdd, 'days')`. moment's `add` mutates its receiver and
returns it, so `oldExpiry` and `newExpiry` alias one object holding the
extended time; the reply's Old Expiry field is rendered from that mutated
object. Returns the saved record and the reply fields. -/
def handleAddCarInsurance (car : Car) (daysToAdd now : Int) : Car × AddReply :=
  let newExpiry := car.expiryDate + daysToAdd * msPerDay
  let oldExpiry := newExpiry
  let daysLeft := getDaysLeft newExpiry now
  ({ car with expiryDate := newExpiry, lastUpdated := now },
   { oldExpiryField := oldExpiry, newExpiryField := newExpiry,
     daysLeftField := daysLeft })

/-- One message of the scheduled alert: embed title, embed description,
optional plain-text content (the role-mention preamble), and the chunk of
records rendered as embed fields. -/
structure AlertPage where
  title : String
  description : String
  content : Option String
  cars : List Car
deriving DecidableEq

/-- The selection predicate of the alert paths (src/index.js:135-138):
records with at most 3 days left. -/
def qualifiesForAlert (car : Car) (now : Int) : Bool :=
  getDaysLeft car.expiryDate now ≤ 3

/-- The scheduled job body (src/index.js:125-185) as the sequence of messages
it sends to the alert channel, in send order (the `for ... of
carChunks.entries()` loop awaits each send before the next): filter to
records with `daysLeft <= 3`; if any, chunk a copy into pages of 10; page 0
gets the plain title, the aggregate-count banner as description, and the
role-mention `content`; later pages get a PART-n title, empty description and
`null` content. `mention` stands for the role-mention preamble string built
from the configured role ids. -/
def scheduledAlertPages (cars : List Car) (now : Int) (mention : String) :
    List AlertPage :=
  let alertList := cars.filter (fun car => qualifiesForAlert car now)
  if alertList.length > 0 then
    (chunkArray alertList 10).enum.map (fun p =>
      { title := if p.1 = 0 then "🚨 INSURANCE EXPIRY ALERT"
          else "🚨 INSURANCE EXPIRY ALERT (PART " ++ toString (p.1 + 1) ++ ")"
        description := if p.1 = 0 then
            "**" ++ toString alertList.length ++ " CAR" ++
              (if alertList.length > 1 then "S" else "") ++ " NEED ATTENTION!**"
          else ""
        content := if p.1 = 0 then some mention else none
        cars := p.2 })
  else []

/-- The list view's component-collector filter (src/index.js:571):
`i => i.user.id === interaction.user.id && i.customId ===
'insurance_list_next'`. Note it admits only the next button's custom id. -/
def listCollectorFilter (origUserId userId customId : String) : Bool :=
  userId == origUserId && customId == "insurance_list_next"

/-- The page-cursor step of the collector's `collect` handler
(src/index.js:574-577): `currentPage++; if (currentPage >= embeds.length)
currentPage = 0`. -/
def advancePage (currentPage total : Nat) : Nat :=
  let p := currentPage + 1
  if p ≥ total then 0 else p

/-- The five configured authorization role ids (src/index.js:87-93). -/
structure RoleConfig where
  adminRole : String
  managerRole : String
  highCommandRole : String
  founderRole : String
  coFounderRole : String

/-- `checkRoles` (src/index.js:86-95): the member holds at least one of the
five required roles. -/
def checkRoles (cfg : RoleConfig) (memberRoles : List String) : Bool :=
  [cfg.adminRole, cfg.managerRole, cfg.highCommandRole, cfg.founderRole,
   cfg.coFounderRole].any (fun roleId => memberRoles.contains roleId)

/-- `needle` occurs as a leading run of `hay`. -/
def leadsWith : List Char → List Char → Bool
  | _, [] => true
  | [], _ :: _ => false
  | h :: t, n :: ns => h == n && leadsWith t ns

/-- `needle` occurs contiguously somewhere in `hay`. -/
def containsSub (hay needle : List Char) : Bool :=
  match hay with
  | [] => needle.isEmpty
  | _ :: rest => leadsWith hay needle || containsSub rest needle

/-- The autocomplete query (src/index.js:207-212): `$regex` with option `i`,
i.e. case-insensitive substring match against the name or the plate. -/
def matchesQuery (car : Car) (q : String) : Bool :=
  containsSub car.carName.toLower.toList q.toLower.toList ||
  containsSub car.numberPlate.toLower.toList q.toLower.toList

/-- The store query of the autocomplete branch, with its `limit(25)`. -/
def autocompleteSearch (store : List Car) (q : String) : List Car :=
  (store.filter (fun car => matchesQuery car q)).take 25

/-- One autocomplete choice (name shown to the invoker, value submitted). -/
structure ACOption where
  name : String
  value : String
deriving DecidableEq

/-- The options built by the autocomplete branch (src/index.js:214-224): one
per matching record, exposing name, plate and days left; if there are none
and the typed value is non-empty (truthy), a single synthetic `new_car_`
option is pushed. -/
def autocompleteOptions (store : List Car) (q : String) (now : Int) :
    List ACOption :=
  let options := (autocompleteSearch store q).map (fun car =>
    { name := car.carName ++ " - " ++ car.numberPlate ++ " (" ++
        toString (getDaysLeft car.expiryDate now) ++ "d)"
      value := car.numberPlate })
  if options.isEmpty && !(q == "") then
    options ++ [{ name := "➕ Add New: \"" ++ q ++ "\"", value := "new_car_" ++ q }]
  else options

/-- The two interaction shapes the dispatcher distinguishes here. -/
inductive InteractionKind where
  | autocomplete
  | command
deriving DecidableEq

/-- An incoming guild interaction, reduced to the fields the dispatcher
reads. -/
structure Interaction where
  kind : InteractionKind
  commandName : String
  memberRoles : List String
  focusedValue : String

/-- What the `interactionCreate` handler does with an interaction. -/
inductive DispatchResult where
  | respond (options : List ACOption)
  | noAutocomplete
  | denied
  | dispatched (commandName : String)
deriving DecidableEq

/-- The three commands whose plate option is autocompleted
(src/index.js:205). -/
def autocompleteCommands : List String :=
  ["add_car_insurance", "less_car_insurance", "remove_car_insurance"]

/-- The `interactionCreate` dispatcher (src/index.js:197-274): an
autocomplete interaction on one of the three plate commands queries the store
and responds with the options, then returns — before the `isCommand` branch
where `checkRoles` is consulted; a command interaction is denied unless the
member passes `checkRoles`, and dispatched to its handler otherwise. -/
def interactionCreate (cfg : RoleConfig) (store : List Car) (now : Int)
    (i : Interaction) : DispatchResult :=
  match i.kind with
  | .autocomplete =>
    if autocompleteCommands.contains i.commandName then
      .respond (autocompleteOptions store i.focusedValue now)
    else .noAutocomplete
  | .command =>
    if !checkRoles cfg i.memberRoles then .denied
    else .dispatched i.commandName

/-- A store of 25 records all expiring at the epoch (used to instantiate the
scheduled-alert scenario). -/
def alertTestCars : List Car :=
  List.replicate 25
    { carName := "Sedan", numberPlate := "PL-01", expiryDate := 0,
      addedBy := "user#1", lastUpdated := 0 }

/-- A record expiring five days after the epoch (used to instantiate the
reduce-validity scenario). -/
def lessTestCar : Car :=
  { carName := "Sedan", numberPlate := "PL-01", expiryDate := 5 * msPerDay,
    addedBy := "user#1", lastUpdated := 0 }

/-- An existing record whose plate differs only by case from a later create
attempt (used to instantiate the duplicate-plate scenario). -/
def dupTestCar : Car :=
  { carName := "Sedan", numberPlate := "MH01-AB", expiryDate := 0,
    addedBy := "user#1", lastUpdated := 0 }

/-- A concrete role configuration (used to instantiate the dispatcher). -/
def acTestConfig : RoleConfig :=
  { adminRole := "r1", managerRole := "r2", highCommandRole := "r3",
    founderRole := "r4", coFounderRole := "r5" }

/-! Helper lemmas about the chunking loop. -/

theorem chunkLoop_fuel_irrel (f₁ : Nat) :
    ∀ (f₂ : Nat) (arr : List α) (k : Nat), arr.length ≤ f₁ → arr.length ≤ f₂ →
      chunkLoop f₁ arr (k + 1) = chunkLoop f₂ arr (k + 1) := by
  induction f₁ with
  | zero =>
    intro f₂ arr k h₁ _
    have harr : arr = [] := List.eq_nil_of_length_eq_zero (Nat.le_zero.mp h₁)
    subst harr
    cases f₂ <;> rfl
  | succ f ih =>
    intro f₂ arr k h₁ h₂
    cases arr with
    | nil => cases f₂ <;> rfl
    | cons a rest =>
      cases f₂ with
      | zero => simp at h₂
      | succ f' =>
        have hd : ((a :: rest).drop (k + 1)).length ≤ rest.length := by
          simp only [List.length_drop, List.length_cons]; omega
        have hlen : rest.length ≤ f := by
          simp only [List.length_cons] at h₁; omega
        have hlen' : rest.length ≤ f' := by
          simp only [List.length_cons] at h₂; omega
        simp only [chunkLoop]
        rw [ih f' ((a :: rest).drop (k + 1)) k (le_trans hd hlen) (le_trans hd hlen')]

theorem chunkArrayMut_nil (k : Nat) : chunkArrayMut ([] : List α) (k + 1) = ([], []) := rfl

theorem chunkArrayMut_cons (a : α) (rest : List α) (k : Nat) :
    chunkArrayMut (a :: rest) (k + 1) =
      ((a :: rest).take (k + 1) :: (chunkArrayMut ((a :: rest).drop (k + 1)) (k + 1)).1,
       (chunkArrayMut ((a :: rest).drop (k + 1)) (k + 1)).2) := by
  show chunkLoop (a :: rest).length (a :: rest) (k + 1) = _
  have hl : (a :: rest).length = rest.length + 1 := by simp
  rw [hl]
  simp only [chunkLoop]
  have hd : ((a :: rest).drop (k + 1)).length ≤ rest.length := by
    simp only [List.length_drop, List.length_cons]; omega
  rw [chunkLoop_fuel_irrel rest.length ((a :: rest).drop (k + 1)).length
        ((a :: rest).drop (k + 1)) k hd (le_refl _)]
  rfl

theorem chunkArray_nil (k : Nat) : chunkArray ([] : List α) (k + 1) = [] := rfl

theorem chunkArray_cons (a : α) (rest : List α) (k : Nat) :
    chunkArray (a :: rest) (k + 1) =
      (a :: rest).take (k + 1) :: chunkArray ((a :: rest).drop (k + 1)) (k + 1) := by
  simp [chunkArray, chunkArrayMut_cons]

theorem chunkArray_of_ne_nil (l : List α) (k : Nat) (h : l ≠ []) :
    chunkArray l (k + 1) = l.take (k + 1) :: chunkArray (l.drop (k + 1)) (k + 1) := by
  cases l with
  | nil => exact absurd rfl h
  | cons a rest => exact chunkArray_cons a rest k

theorem chunkArrayMut_snd (l : List α) (k : Nat) :
    (chunkArrayMut l (k + 1)).2 = [] := by
  match l with
  | [] => rfl
  | a :: rest =>
    rw [chunkArrayMut_cons]
    exact chunkArrayMut_snd ((a :: rest).drop (k + 1)) k
termination_by l.length
decreasing_by simp [List.length_drop]; omega

theorem chunkArray_flatten (l : List α) (k : Nat) :
    (chunkArray l (k + 1)).flatten = l := by
  match l with
  | [] => rfl
  | a :: rest =>
    rw [chunkArray_cons]
    have ih := chunkArray_flatten ((a :: rest).drop (k + 1)) k
    simp only [List.flatten_cons, ih]
    exact List.take_append_drop (k + 1) (a :: rest)
termination_by l.length
decreasing_by simp [List.length_drop]; omega

theorem chunkArray_length (l : List α) :
    (chunkArray l 10).length = (l.length + 9) / 10 := by
  match l with
  | [] =>
    rw [show (10 : Nat) = 9 + 1 from rfl, chunkArray_nil]
    simp only [List.length_nil]
  | a :: rest =>
    rw [show (10 : Nat) = 9 + 1 from rfl, chunkArray_cons,
        show (9 : Nat) + 1 = 10 from rfl]
    have ih := chunkArray_length ((a :: rest).drop 10)
    simp only [List.length_cons, ih, List.length_drop]
    omega
termination_by l.length
decreasing_by simp [List.length_drop]; omega

theorem chunkArray_eq_nil_iff (l : List α) (k : Nat) :
    chunkArray l (k + 1) = [] ↔ l = [] := by
  cases l with
  | nil => simp [chunkArray_nil]
  | cons a rest => simp [chunkArray_cons]

theorem chunkArray_dropLast_all (l : List α) :
    ((chunkArray l 10).dropLast.all fun p => p.length == 10) = true := by
  match l with
  | [] =>
    rw [show (10 : Nat) = 9 + 1 from rfl, chunkArray_nil]
    rfl
  | a :: rest =>
    rw [show (10 : Nat) = 9 + 1 from rfl, chunkArray_cons,
        show (9 : Nat) + 1 = 10 from rfl]
    have ih := chunkArray_dropLast_all ((a :: rest).drop 10)
    cases hp : chunkArray ((a :: rest).drop 10) 10 with
    | nil => simp
    | cons q qs =>
      have hd : (a :: rest).drop 10 ≠ [] := by
        intro hnil
        rw [show (10 : Nat) = 9 + 1 from rfl] at hp
        rw [(chunkArray_eq_nil_iff _ 9).mpr hnil] at hp
        exact List.cons_ne_nil q qs hp.symm
      have hlen : 10 ≤ (a :: rest).length := by
        by_contra hlt
        exact hd (List.drop_eq_nil_of_le (by omega))
      rw [hp] at ih
      simp only [List.dropLast_cons₂, List.all_cons, ih, Bool.and_true]
      simp only [List.length_cons] at hlen
      simp only [List.length_take, List.length_cons, beq_iff_eq]
      omega
termination_by l.length
decreasing_by simp [List.length_drop]; omega

theorem chunkArray_all_nonempty (l : List α) :
    ((chunkArray l 10).all fun p => !p.isEmpty) = true := by
  match l with
  | [] =>
    rw [show (10 : Nat) = 9 + 1 from rfl, chunkArray_nil]
    rfl
  | a :: rest =>
    rw [show (10 : Nat) = 9 + 1 from rfl, chunkArray_cons,
        show (9 : Nat) + 1 = 10 from rfl]
    have ih := chunkArray_all_nonempty ((a :: rest).drop 10)
    simp only [List.all_cons, ih, Bool.and_true]
    simp [List.take]
termination_by l.length
decreasing_by simp [List.length_drop]; omega

theorem chunkArray_of_length_25 (l : List α) (h : l.length = 25) :
    chunkArray l 10 =
      [l.take 10, (l.drop 10).take 10, ((l.drop 10).drop 10).take 10] := by
  have h₀ : l ≠ [] := by intro hn; rw [hn] at h; simp at h
  have h₁ : l.drop 10 ≠ [] := by
    intro hn
    have := congrArg List.length hn
    simp [List.length_drop, h] at this
  have h₂ : (l.drop 10).drop 10 ≠ [] := by
    intro hn
    have := congrArg List.length hn
    simp [List.length_drop, h] at this
  have h₃ : ((l.drop 10).drop 10).drop 10 = [] := by
    apply List.drop_eq_nil_of_le
    simp [List.length_drop, h]
  rw [show (10 : Nat) = 9 + 1 from rfl]
  rw [chunkArray_of_ne_nil l 9 h₀, chunkArray_of_ne_nil (l.drop (9 + 1)) 9 (by simpa using h₁),
      chunkArray_of_ne_nil ((l.drop (9 + 1)).drop (9 + 1)) 9 (by simpa using h₂)]
  rw [show (9 : Nat) + 1 = 10 from rfl, h₃]
  rfl

/-! Claim theorems. -/

/-- C1: the expiry classifier computes `daysLeft` as the ceiling of the
day-difference `(expiryAt - now) / 86400000` between the two timestamps (the
configured zone has a fixed offset, so the difference is pure millisecond
arithmetic), and maps it to a tier by exactly the spec's boundaries:
`daysLeft <= 0` EXPIRED, 1..3 URGENT, 4..7 WARNING, above 7 ACTIVE, for every
pair of timestamps. -/
theorem daysLeft_is_ceiling_and_tier_boundaries (e n : Int) :
    getDaysLeft e n = Int.ceil (((e : ℚ) - (n : ℚ)) / (86400000 : ℚ)) ∧
    ∀ d : Int, getStatusEmoji d = tierLabel (specTier d) := by
  constructor
  · have key : ∀ k : Int, getDaysLeft e n ≤ k ↔
        ((e : ℚ) - (n : ℚ)) / (86400000 : ℚ) ≤ (k : ℚ) := by
      intro k
      rw [div_le_iff₀ (by norm_num : (0 : ℚ) < 86400000)]
      show -((-(e - n)) / msPerDay) ≤ k ↔ _
      rw [neg_le, Int.le_ediv_iff_mul_le (by norm_num [msPerDay] : (0 : Int) < msPerDay)]
      constructor
      · intro h
        have h' : (e - n : ℤ) ≤ k * 86400000 := by
          simp only [msPerDay] at h; omega
        exact_mod_cast h'
      · intro h
        have h' : (e - n : ℤ) ≤ k * 86400000 := by exact_mod_cast h
        simp only [msPerDay]; omega
    exact le_antisymm ((key _).mpr (Int.le_ceil _)) (Int.ceil_le.mpr ((key _).mp le_rfl))
  · intro d
    simp only [getStatusEmoji, specTier]
    split_ifs <;> first | rfl | omega

/-- C2: for pageSize 10, `chunkArray` is a length-preserving partition:
flattening the pages reproduces the input, every page before the last has
exactly 10 records, no page is empty, the page count is `ceil(count / 10)`,
and the empty input yields no pages (not one empty page). -/
theorem chunkArray_partition {α : Type _} (l : List α) :
    (chunkArray l 10).flatten = l ∧
    ((chunkArray l 10).dropLast.all fun p => p.length == 10) = true ∧
    ((chunkArray l 10).all fun p => !p.isEmpty) = true ∧
    (chunkArray l 10).length = (l.length + 9) / 10 ∧
    chunkArray ([] : List α) 10 = [] := by
  refine ⟨?_, chunkArray_dropLast_all l, chunkArray_all_nonempty l, chunkArray_length l, ?_⟩
  · rw [show (10 : Nat) = 9 + 1 from rfl]
    exact chunkArray_flatten l 9
  · rw [show (10 : Nat) = 9 + 1 from rfl]
    exact chunkArray_nil 9

/-- C7 counterexample: `chunkArray` does not leave its input array unchanged.
It drains it: `splice` removes the taken elements from the array object, so
after the call on `[0]` the array holds `[]`, not `[0]`. -/
theorem chunkArrayMut_not_frame_preserving_cex :
    (chunkArrayMut [(0 : Nat)] 10).2 ≠ [(0 : Nat)] := by decide

/-- C7 amended: `chunkArray` empties the array object handed to it (its final
state is `[]` for every input at page size 10), and its returned pages are a
function of the input value alone — identical input order and page size give
identical output — so the call sites, which pass a fresh copy `[...list]`,
leave the caller's own sequence unchanged. -/
theorem chunkArray_drains_input_deterministic {α : Type _} (l : List α) :
    (chunkArrayMut l 10).2 = [] ∧ (chunkArrayMut l 10).1 = chunkArray l 10 := by
  refine ⟨?_, rfl⟩
  rw [show (10 : Nat) = 9 + 1 from rfl]
  exact chunkArrayMut_snd l 9

/-- C8 counterexample: after the first click the list view displays a
Previous Page button, but the collector filter accepts only the custom id
`insurance_list_next`, so a previous-button interaction from the original
operator does not qualify and is never collected. -/
theorem listCollector_prev_click_cex :
    listCollectorFilter "operator" "operator" "insurance_list_prev" = false := by
  decide

/-- C8 amended: in the list view's pagination collector, an interaction
qualifies exactly when it comes from the original operator and carries the
next-button custom id (the displayed previous button never qualifies), and
each qualifying click advances the zero-based page cursor modulo the total
page count, wrapping from the last page back to the first. -/
theorem listCollector_next_only_and_wraps (origUserId userId customId : String)
    (page total : Nat) (h : page < total) :
    (listCollectorFilter origUserId userId customId = true ↔
      (userId = origUserId ∧ customId = "insurance_list_next")) ∧
    advancePage page total = (page + 1) % total := by
  constructor
  · simp [listCollectorFilter, Bool.and_eq_true]
  · simp only [advancePage]
    by_cases hge : page + 1 ≥ total
    · have ht : page + 1 = total := by omega
      simp [hge, ht, Nat.mod_self]
    · have hlt : page + 1 < total := by omega
      simp [hge, Nat.mod_eq_of_lt hlt]

theorem listCollector_next_only_and_wraps_witness :
    1 < 3 ∧
    ((listCollectorFilter "op" "op" "insurance_list_next" = true ↔
      ("op" = "op" ∧ "insurance_list_next" = "insurance_list_next")) ∧
     advancePage 1 3 = (1 + 1) % 3) :=
  ⟨by decide, listCollector_next_only_and_wraps "op" "op" "insurance_list_next" 1 3 (by decide)⟩

/-- C9: in the extend command, `oldExpiry.add(daysToAdd, 'days')` mutates the
old-expiry moment in place, so the reply's Old Expiry field always equals its
New Expiry field (both render the post-extension time), while the stored new
expiry does equal the pre-extension expiry plus the added days, and the
update refreshes `lastUpdated`. -/
theorem addCarInsurance_old_field_aliases_new (car : Car) (daysToAdd now : Int) :
    (handleAddCarInsurance car daysToAdd now).2.oldExpiryField =
      (handleAddCarInsurance car daysToAdd now).2.newExpiryField ∧
    (handleAddCarInsurance car daysToAdd now).2.newExpiryField =
      car.expiryDate + daysToAdd * msPerDay ∧
    (handleAddCarInsurance car daysToAdd now).1.expiryDate =
      car.expiryDate + daysToAdd * msPerDay ∧
    (handleAddCarInsurance car daysToAdd now).1.lastUpdated = now :=
  ⟨rfl, rfl, rfl, rfl⟩

/-- C3: the reduce command rejects with the INVALID ADJUSTMENT reply exactly
when the candidate expiry (current expiry minus the days to subtract) has a
negative `daysLeft`; the rejection carries the old expiry, the candidate new
expiry and the resulting days-left, and the store is unchanged; when
`daysLeft >= 0` the new expiry is committed and `lastUpdated` refreshed. -/
theorem lessCarInsurance_rejects_iff_negative (store : List Car) (plate : String)
    (daysToSubtract now : Int) (car : Car)
    (hfind : findByPlate store plate = some car) :
    (getDaysLeft (car.expiryDate - daysToSubtract * msPerDay) now < 0 →
      handleLessCarInsurance store plate daysToSubtract now =
        (store, LessOutcome.rejected car.expiryDate
          (car.expiryDate - daysToSubtract * msPerDay)
          (getDaysLeft (car.expiryDate - daysToSubtract * msPerDay) now))) ∧
    (0 ≤ getDaysLeft (car.expiryDate - daysToSubtract * msPerDay) now →
      handleLessCarInsurance store plate daysToSubtract now =
        (saveCar store { car with expiryDate := car.expiryDate - daysToSubtract * msPerDay,
                                  lastUpdated := now },
         LessOutcome.updated { car with
           expiryDate := car.expiryDate - daysToSubtract * msPerDay,
           lastUpdated := now })) := by
  constructor
  · intro hneg
    unfold handleLessCarInsurance
    rw [hfind]
    dsimp only
    rw [if_pos hneg]
  · intro hpos
    unfold handleLessCarInsurance
    rw [hfind]
    dsimp only
    rw [if_neg (by omega)]

theorem lessCarInsurance_rejects_iff_negative_witness :
    findByPlate [lessTestCar] "PL-01" = some lessTestCar ∧
    ((getDaysLeft (lessTestCar.expiryDate - 10 * msPerDay) 0 < 0 →
      handleLessCarInsurance [lessTestCar] "PL-01" 10 0 =
        ([lessTestCar], LessOutcome.rejected lessTestCar.expiryDate
          (lessTestCar.expiryDate - 10 * msPerDay)
          (getDaysLeft (lessTestCar.expiryDate - 10 * msPerDay) 0))) ∧
     (0 ≤ getDaysLeft (lessTestCar.expiryDate - 10 * msPerDay) 0 →
      handleLessCarInsurance [lessTestCar] "PL-01" 10 0 =
        (saveCar [lessTestCar] { lessTestCar with
           expiryDate := lessTestCar.expiryDate - 10 * msPerDay, lastUpdated := 0 },
         LessOutcome.updated { lessTestCar with
           expiryDate := lessTestCar.expiryDate - 10 * msPerDay, lastUpdated := 0 }))) :=
  ⟨by decide, lessCarInsurance_rejects_iff_negative [lessTestCar] "PL-01" 10 0
    lessTestCar (by decide)⟩

/-- C4 counterexample: plate uniqueness is NOT case-insensitive. With
`MH01-AB` already stored, creating `mh01-ab` (differing only by letter case)
does not fail with the duplicate error: the create succeeds and a second
record is inserted, because the unique index matches plates
case-sensitively. -/
theorem duplicatePlate_case_insensitive_cex :
    handleNewCarInsurance [dupTestCar] "Sedan2" "mh01-ab" 5 0 "user#2" =
      ([dupTestCar,
        { carName := "Sedan2", numberPlate := "mh01-ab",
          expiryDate := 0 + 5 * msPerDay, addedBy := "user#2", lastUpdated := 0 }],
       Except.ok { carName := "Sedan2", numberPlate := "mh01-ab",
                   expiryDate := 0 + 5 * msPerDay, addedBy := "user#2",
                   lastUpdated := 0 }) := by
  rfl

/-- C4 amended: plate uniqueness is case-sensitive: a create whose plateId
is byte-identical to an existing record's plateId fails with DuplicatePlate
and leaves the store (hence the existing record) unmodified. -/
theorem duplicatePlate_exact_match (store : List Car) (carName plate : String)
    (days now : Int) (addedBy : String)
    (hvalid : isValidPlate plate = true)
    (hdup : store.any (fun r => r.numberPlate == plate) = true) :
    handleNewCarInsurance store carName plate days now addedBy =
      (store, Except.error CreateError.duplicatePlate) := by
  simp [handleNewCarInsurance, hvalid, hdup]

theorem duplicatePlate_exact_match_witness :
    isValidPlate "MH01-AB" = true ∧
    ([dupTestCar].any (fun r => r.numberPlate == "MH01-AB") = true) ∧
    handleNewCarInsurance [dupTestCar] "Sedan2" "MH01-AB" 5 0 "user#2" =
      ([dupTestCar], Except.error CreateError.duplicatePlate) :=
  ⟨by decide, by decide,
    duplicatePlate_exact_match [dupTestCar] "Sedan2" "MH01-AB" 5 0 "user#2"
      (by decide) (by decide)⟩

/-- C5: for every plate matching the pattern and not already stored (exact
match), create followed by findByPlate on that plate returns a record whose
plateId and vehicleName are the inputs, and whose expiryAt is the creation
time plus the given days-valid (in whole days of the configured zone). -/
theorem create_then_findByPlate (store : List Car) (carName plate addedBy : String)
    (days now : Int)
    (hvalid : isValidPlate plate = true)
    (hfresh : store.any (fun r => r.numberPlate == plate) = false) :
    (handleNewCarInsurance store carName plate days now addedBy).2 =
      Except.ok { carName := carName, numberPlate := plate,
                  expiryDate := now + days * msPerDay, addedBy := addedBy,
                  lastUpdated := now } ∧
    findByPlate (handleNewCarInsurance store carName plate days now addedBy).1 plate =
      some { carName := carName, numberPlate := plate,
             expiryDate := now + days * msPerDay, addedBy := addedBy,
             lastUpdated := now } := by
  have hnone : store.find? (fun r => r.numberPlate == plate) = none := by
    rw [List.find?_eq_none]
    intro x hx
    simpa using List.any_eq_false.mp hfresh x hx
  constructor
  · simp [handleNewCarInsurance, hvalid, hfresh]
  · simp [handleNewCarInsurance, hvalid, hfresh, findByPlate, List.find?_append, hnone]

theorem create_then_findByPlate_witness :
    isValidPlate "MH01-AB" = true ∧
    (([] : List Car).any (fun r => r.numberPlate == "MH01-AB") = false) ∧
    ((handleNewCarInsurance [] "Sedan" "MH01-AB" 7 0 "user#1").2 =
      Except.ok { carName := "Sedan", numberPlate := "MH01-AB",
                  expiryDate := 0 + 7 * msPerDay, addedBy := "user#1",
                  lastUpdated := 0 } ∧
     findByPlate (handleNewCarInsurance [] "Sedan" "MH01-AB" 7 0 "user#1").1 "MH01-AB" =
      some { carName := "Sedan", numberPlate := "MH01-AB",
             expiryDate := 0 + 7 * msPerDay, addedBy := "user#1",
             lastUpdated := 0 }) :=
  ⟨by decide, by decide,
    create_then_findByPlate [] "Sedan" "MH01-AB" "user#1" 7 0 (by decide) (by decide)⟩

/-- C6: when the daily scheduled alert finds exactly 25 qualifying records
(daysLeft at most 3), it sends exactly 3 pages of 10, 10 and 5 records, in
that order (the list below is the channel-send order of the loop); only the
first page carries the role-mention content and the aggregate-count banner,
and the later pages instead carry a PART-N title with empty description and
no mention content. -/
theorem scheduledAlert_25_three_pages (cars : List Car) (now : Int) (mention : String)
    (h : (cars.filter (fun car => qualifiesForAlert car now)).length = 25) :
    ((scheduledAlertPages cars now mention).map fun p => p.cars.length) = [10, 10, 5] ∧
    ((scheduledAlertPages cars now mention).map fun p => p.content) =
      [some mention, none, none] ∧
    ((scheduledAlertPages cars now mention).map fun p => p.title) =
      ["🚨 INSURANCE EXPIRY ALERT", "🚨 INSURANCE EXPIRY ALERT (PART 2)",
        "🚨 INSURANCE EXPIRY ALERT (PART 3)"] ∧
    ((scheduledAlertPages cars now mention).map fun p => p.description) =
      ["**25 CARS NEED ATTENTION!**", "", ""] := by
  set L := cars.filter (fun car => qualifiesForAlert car now) with hLdef
  have hchunks := chunkArray_of_length_25 L h
  have hexp : scheduledAlertPages cars now mention =
      [{ title := "🚨 INSURANCE EXPIRY ALERT",
         description := "**25 CARS NEED ATTENTION!**",
         content := some mention,
         cars := L.take 10 },
       { title := "🚨 INSURANCE EXPIRY ALERT (PART 2)", description := "",
         content := none, cars := (L.drop 10).take 10 },
       { title := "🚨 INSURANCE EXPIRY ALERT (PART 3)", description := "",
         content := none, cars := ((L.drop 10).drop 10).take 10 }] := by
    simp only [scheduledAlertPages]
    rw [← hLdef, hchunks, h]
    rw [if_pos (by norm_num : (25 : Nat) > 0)]
    simp only [List.enum_cons, List.enumFrom, List.map_cons, List.map_nil]
    norm_num
    exact ⟨rfl, rfl, rfl⟩
  have hl1 : (L.take 10).length = 10 := by
    simp only [List.length_take, inf_eq_min, Nat.min_def]
    split <;> omega
  have hl2 : ((L.drop 10).take 10).length = 10 := by
    simp only [List.length_take, List.length_drop, inf_eq_min, Nat.min_def]
    split <;> omega
  have hl3 : (((L.drop 10).drop 10).take 10).length = 5 := by
    simp only [List.length_take, List.length_drop, inf_eq_min, Nat.min_def]
    split <;> omega
  rw [hexp]
  refine ⟨?_, rfl, rfl, rfl⟩
  simp only [List.map_cons, List.map_nil, hl1, hl2, hl3]

theorem scheduledAlert_25_three_pages_witness :
    (alertTestCars.filter (fun car => qualifiesForAlert car 0)).length = 25 ∧
    (((scheduledAlertPages alertTestCars 0 "mention").map fun p => p.cars.length) =
       [10, 10, 5] ∧
     ((scheduledAlertPages alertTestCars 0 "mention").map fun p => p.content) =
       [some "mention", none, none] ∧
     ((scheduledAlertPages alertTestCars 0 "mention").map fun p => p.title) =
       ["🚨 INSURANCE EXPIRY ALERT", "🚨 INSURANCE EXPIRY ALERT (PART 2)",
         "🚨 INSURANCE EXPIRY ALERT (PART 3)"] ∧
     ((scheduledAlertPages alertTestCars 0 "mention").map fun p => p.description) =
       ["**25 CARS NEED ATTENTION!**", "", ""]) :=
  ⟨by decide, scheduledAlert_25_three_pages alertTestCars 0 "mention" (by decide)⟩

/-- C10: the autocomplete surface has no authorization-role check: for every
autocomplete interaction on one of the three plate-suggesting commands, the
dispatcher queries the store and responds with the suggestion list (at most
25 options, exposing names, plates and days-left) regardless of the
invoker's roles — the answer is identical under any two role sets — because
`checkRoles` is consulted only on the command branch, after the autocomplete
branch has returned. -/
theorem autocomplete_no_role_gate (cfg : RoleConfig) (store : List Car) (now : Int)
    (name q : String) (roles₁ roles₂ : List String)
    (h : autocompleteCommands.contains name = true) :
    interactionCreate cfg store now
        { kind := .autocomplete, commandName := name, memberRoles := roles₁,
          focusedValue := q } =
      DispatchResult.respond (autocompleteOptions store q now) ∧
    interactionCreate cfg store now
        { kind := .autocomplete, commandName := name, memberRoles := roles₁,
          focusedValue := q } =
      interactionCreate cfg store now
        { kind := .autocomplete, commandName := name, memberRoles := roles₂,
          focusedValue := q } ∧
    (autocompleteOptions store q now).length ≤ 25 := by
  have hm : name ∈ autocompleteCommands := by simpa using h
  refine ⟨?_, ?_, ?_⟩
  · simp [interactionCreate, hm]
  · simp [interactionCreate, hm]
  · simp only [autocompleteOptions]
    split
    next hcond =>
      rw [Bool.and_eq_true] at hcond
      obtain ⟨h1, -⟩ := hcond
      rw [List.isEmpty_iff] at h1
      rw [h1]
      simp
    next =>
      simp only [List.length_map, autocompleteSearch, List.length_take]
      omega

theorem autocomplete_no_role_gate_witness :
    autocompleteCommands.contains "add_car_insurance" = true ∧
    (interactionCreate acTestConfig [] 0
        { kind := .autocomplete, commandName := "add_car_insurance",
          memberRoles := [], focusedValue := "" } =
      DispatchResult.respond (autocompleteOptions [] "" 0) ∧
     interactionCreate acTestConfig [] 0
        { kind := .autocomplete, commandName := "add_car_insurance",
          memberRoles := [], focusedValue := "" } =
      interactionCreate acTestConfig [] 0
        { kind := .autocomplete, commandName := "add_car_insurance",
          memberRoles := ["r1"], focusedValue := "" } ∧
     (autocompleteOptions [] "" 0).length ≤ 25) :=
  ⟨by decide,
    autocomplete_no_role_gate acTestConfig [] 0 "add_car_insurance" "" [] ["r1"]
      (by decide)⟩
